import Mathlib

/-!
Shallow embedding of the vyper-js client library (src/errors.ts,
src/vyper-client.ts, src/vyper-websocket-client.ts) and proofs about it.

JavaScript numbers are modelled as `JSNum` (a rational, NaN, or an
infinity); machine floating point rounding is irrelevant here because the
only numeric computation in the source is `parseFloat` of a header value.
HTTP and socket interactions are modelled by passing the outcome of the
single request or send explicitly to each operation.
-/

/-- Result of a JavaScript numeric computation: an ordinary (exact) value,
NaN, or a signed infinity. -/
inductive JSNum : Type
  | nan : JSNum
  | inf (neg : Bool) : JSNum
  | val (q : ℚ) : JSNum
deriving DecidableEq, Repr

/-- Rendering of a `JSNum` into a string, as used inside template strings.
Exact for NaN, infinities and integral values, which are the only values
the source ever renders; non-integral rationals are rendered as fractions
rather than as shortest decimals. -/
def JSNum.render : JSNum → String
  | .nan => "NaN"
  | .inf neg => if neg then "-Infinity" else "Infinity"
  | .val q => if q.den = 1 then toString q.num else toString q

/-- Characters treated as leading whitespace by the JavaScript
`parseFloat` builtin. -/
def isJsWhitespace (c : Char) : Bool :=
  c = ' ' || c = '\t' || c = '\n' || c = '\r' || c = '\x0b' || c = '\x0c'

/-- Numeric value of a decimal digit character. -/
def digitVal (c : Char) : Nat := c.toNat - Char.toNat '0'

/-- Splits a character list into its longest prefix of decimal digits and
the rest. -/
def takeDigits : List Char → List Char × List Char
  | [] => ([], [])
  | c :: cs =>
    if c.isDigit then
      let (d, r) := takeDigits cs
      (c :: d, r)
    else ([], c :: cs)

/-- Value of a list of decimal digit characters. -/
def digitsToNat (ds : List Char) : Nat :=
  ds.foldl (fun a c => a * 10 + digitVal c) 0

/-- Exact value of a decimal literal: optional sign, mantissa digits read
as an integer, the count of digits after the decimal point, and a power
of ten from the exponent part.  Built with `mkRat` so that it evaluates
by reduction. -/
def decimalValue (neg : Bool) (mantissa : Nat) (fracLen : Nat) (expVal : Int) : ℚ :=
  let signedMantissa : Int := if neg then -(mantissa : Int) else (mantissa : Int)
  let e10 : Int := expVal - (fracLen : Int)
  if 0 ≤ e10 then mkRat (signedMantissa * (10 : Int) ^ e10.toNat) 1
  else mkRat signedMantissa ((10 : Nat) ^ (-e10).toNat)

/-- Model of the JavaScript `parseFloat` builtin on a character list:
skip leading whitespace, an optional sign, then either `Infinity` or the
longest decimal-literal prefix (integer digits, optional fraction,
optional exponent); if no digits are found the result is NaN. -/
def jsParseFloatList (cs0 : List Char) : JSNum :=
  let cs := cs0.dropWhile isJsWhitespace
  let signed : Bool × List Char :=
    match cs with
    | '-' :: rest => (true, rest)
    | '+' :: rest => (false, rest)
    | _ => (false, cs)
  let neg := signed.1
  let cs := signed.2
  if List.isPrefixOf ("Infinity".data) cs then JSNum.inf neg
  else
    let intPart := takeDigits cs
    let intDs := intPart.1
    let cs1 := intPart.2
    let fracPart : List Char × List Char :=
      match cs1 with
      | '.' :: rest => takeDigits rest
      | _ => ([], cs1)
    let fracDs := fracPart.1
    let cs2 := fracPart.2
    if intDs = [] ∧ fracDs = [] then JSNum.nan
    else
      let expVal : Int :=
        match cs2 with
      | e :: rest =>
          if e = 'e' ∨ e = 'E' then
            let esigned : Bool × List Char :=
              match rest with
              | '-' :: r => (true, r)
              | '+' :: r => (false, r)
              | _ => (false, rest)
            let eds := (takeDigits esigned.2).1
            if eds = [] then 0
            else if esigned.1 then -(digitsToNat eds : Int) else (digitsToNat eds : Int)
          else 0
        | [] => 0
      JSNum.val (decimalValue neg (digitsToNat (intDs ++ fracDs)) fracDs.length expVal)

/-- Model of the JavaScript `parseFloat` builtin on a string. -/
def jsParseFloat (s : String) : JSNum := jsParseFloatList s.data

/-- Truthiness of an optional JavaScript string: `undefined` and the empty
string are falsy, every other string is truthy. -/
def jsTruthyStr : Option String → Bool
  | none => false
  | some s => !(s = "")

/-- Error taxonomy of src/errors.ts for the REST client.  Constructor
arguments mirror the class fields: `RateLimitError` is built with only a
message and a retryAfter value (its `super` call passes no status code and
no response), so it stores neither a status code nor a response body. -/
inductive VyperError : Type
  | authenticationError (message : String) (statusCode : Option Nat) (response : Option String)
  | rateLimitError (message : String) (retryAfter : JSNum)
  | serverError (message : String) (statusCode : Option Nat) (response : Option String)
  | apiError (message : String) (statusCode : Option Nat) (response : Option String)
deriving DecidableEq, Repr

/-- Field `statusCode` of a raised error object. -/
def VyperError.statusCode : VyperError → Option Nat
  | .authenticationError _ sc _ => sc
  | .rateLimitError _ _ => none
  | .serverError _ sc _ => sc
  | .apiError _ sc _ => sc

/-- Field `response` (the raw response body) of a raised error object. -/
def VyperError.response : VyperError → Option String
  | .authenticationError _ _ r => r
  | .rateLimitError _ _ => none
  | .serverError _ _ r => r
  | .apiError _ _ r => r

/-- Field `retryAfter`, present only on rate-limit errors. -/
def VyperError.retryAfter : VyperError → Option JSNum
  | .rateLimitError _ ra => some ra
  | _ => none

/-- The class of an error, used to state the classification claims. -/
inductive ErrClass : Type
  | authentication
  | rateLimit
  | server
  | api
deriving DecidableEq, Repr

/-- Class of a raised error object. -/
def VyperError.classOf : VyperError → ErrClass
  | .authenticationError _ _ _ => .authentication
  | .rateLimitError _ _ => .rateLimit
  | .serverError _ _ _ => .server
  | .apiError _ _ _ => .api

/-- Outcome of the single HTTP exchange performed by `request`: a parsed
success body, an HTTP error response (axios rejects every non-2xx status,
so `status` is never in the 2xx range) with its status, its optional
`retry-after` header, its raw body and the axios error message, or a
network-level failure where no response was received. -/
inductive HttpOutcome (α : Type) : Type
  | success (body : α)
  | httpError (status : Nat) (retryAfterHeader : Option String) (body : String) (message : String)
  | networkError (message : String)

/-- Model of the expression `error.response.headers['retry-after'] || '3.00'`:
a missing header and an empty header are both falsy in JavaScript, so both
fall back to the literal `'3.00'`. -/
def headerOrDefault : Option String → String
  | none => "3.00"
  | some s => if s = "" then "3.00" else s

/-- Embedding of `VyperClient.request` (src/vyper-client.ts): returns the
response body on success, otherwise classifies the failure exactly as the
catch block does. -/
def request {α : Type} : HttpOutcome α → Except VyperError α
  | .success body => .ok body
  | .httpError status retryAfterHeader body message =>
    if status = 401 then
      .error (.authenticationError "Invalid or expired API key" (some status) (some body))
    else if status = 429 then
      let retryAfter := jsParseFloat (headerOrDefault retryAfterHeader)
      .error (.rateLimitError
        ("Rate limit exceeded. Please wait " ++ retryAfter.render ++
          " seconds before making another request.")
        retryAfter)
    else if 500 ≤ status ∧ status < 600 then
      .error (.serverError ("Server error: " ++ toString status) (some status) (some body))
    else
      .error (.apiError ("HTTP error occurred: " ++ message) (some status) (some body))
  | .networkError message =>
    if message = "Network Error" then
      .error (.serverError "Server error: Network Error" none none)
    else
      .error (.serverError ("An error occurred: " ++ message) none none)

/-- Extracts the error of an `Except`, if any. -/
def Except.errorOf {ε α : Type} : Except ε α → Option ε
  | .error e => some e
  | .ok _ => none

/-- Envelope every REST response uses (src/types.ts `APIResponse`). -/
structure APIResponse (α : Type) : Type where
  status : String
  message : String
  data : α

/-- State of a `VyperClient` instance: the fixed base URL, the optional
API key given at construction, and the `X-API-Key` default header of the
underlying axios instance. -/
structure VyperClient : Type where
  baseUrl : String
  apiKey : Option String
  headerXApiKey : Option String
deriving DecidableEq, Repr

/-- Embedding of the `VyperClient` constructor: the header is set exactly
when the given key is truthy. -/
def VyperClient.create (apiKey : Option String) : VyperClient :=
  { baseUrl := "https://api.vyper.trade"
  , apiKey := apiKey
  , headerXApiKey := if jsTruthyStr apiKey then apiKey else none }

/-- Observable outcome of one REST operation: either the local
precondition check failed and no HTTP request was issued, or one request
was issued to the given endpoint and produced the given result. -/
inductive OpResult (α : Type) : Type
  | noRequest (e : VyperError)
  | requested (endpoint : String) (result : Except VyperError α)

/-- Whether the operation issued an HTTP request. -/
def OpResult.issuedRequest {α : Type} : OpResult α → Bool
  | .noRequest _ => false
  | .requested _ _ => true

/-- The authentication error thrown by the local API-key precondition
checks (constructed with message only, so status code and response are
absent). -/
def missingKeyError : VyperError :=
  .authenticationError "API key is required for this endpoint" none none

/-- Embedding of `getTokenAth`. -/
def getTokenAth {α : Type} (c : VyperClient) (_chainId : Int) (_marketId : String)
    (outcome : HttpOutcome (APIResponse α)) : OpResult α :=
  if jsTruthyStr c.apiKey = false then .noRequest missingKeyError
  else .requested "/api/v1/token/ath" ((request outcome).map APIResponse.data)

/-- Embedding of `getTokenMarket` (default arguments chainId = 900 and
interval = 24h affect only the query parameters, which are not part of
the modelled observations). -/
def getTokenMarket {α : Type} (c : VyperClient) (marketId : String) (_chainId : Int)
    (_interval : String) (outcome : HttpOutcome (APIResponse α)) : OpResult α :=
  if jsTruthyStr c.apiKey = false then .noRequest missingKeyError
  else .requested ("/api/v1/token/market/" ++ marketId) ((request outcome).map APIResponse.data)

/-- A single holder record (src/types.ts `TokenHolder`). -/
structure TokenHolder : Type where
  percentOwned : ℚ
  tokenHoldings : ℚ
  usdHoldings : ℚ
  walletAddress : String
deriving DecidableEq, Repr

/-- Shape of the server payload for the holders endpoint. -/
structure TokenHoldersPayload : Type where
  holders : List TokenHolder
  total_holders : Int
deriving DecidableEq, Repr

/-- Shape of the record `getTokenHolders` returns to its caller. -/
structure TokenHoldersResult : Type where
  holders : List TokenHolder
  totalHolders : Int
deriving DecidableEq, Repr

/-- Embedding of `getTokenHolders`: renames the `total_holders` field of
the payload to `totalHolders` and passes `holders` through. -/
def getTokenHolders (c : VyperClient) (_marketId : String) (_chainId : Int)
    (outcome : HttpOutcome (APIResponse TokenHoldersPayload)) : OpResult TokenHoldersResult :=
  if jsTruthyStr c.apiKey = false then .noRequest missingKeyError
  else .requested "/api/v1/token/holders"
    ((request outcome).map (fun r =>
      { holders := r.data.holders, totalHolders := r.data.total_holders }))

/-- Embedding of `getTokenMarkets`. -/
def getTokenMarkets {α : Type} (c : VyperClient) (_tokenMint : String) (_chainId : Int)
    (outcome : HttpOutcome (APIResponse α)) : OpResult α :=
  if jsTruthyStr c.apiKey = false then .noRequest missingKeyError
  else .requested "/api/v1/token/markets" ((request outcome).map APIResponse.data)

/-- Embedding of `getTokenMetadata`. -/
def getTokenMetadata {α : Type} (c : VyperClient) (_chainId : Int) (_tokenMint : String)
    (outcome : HttpOutcome (APIResponse α)) : OpResult α :=
  if jsTruthyStr c.apiKey = false then .noRequest missingKeyError
  else .requested "/api/v1/token/metadata" ((request outcome).map APIResponse.data)

/-- Embedding of `getTokenSymbol`. -/
def getTokenSymbol {α : Type} (c : VyperClient) (_chainId : Int) (_tokenMint : String)
    (outcome : HttpOutcome (APIResponse α)) : OpResult α :=
  if jsTruthyStr c.apiKey = false then .noRequest missingKeyError
  else .requested "/api/v1/token/symbol" ((request outcome).map APIResponse.data)

/-- Embedding of `getTopTraders`. -/
def getTopTraders {α : Type} (c : VyperClient) (_marketId : String) (_chainId : Int)
    (outcome : HttpOutcome (APIResponse α)) : OpResult α :=
  if jsTruthyStr c.apiKey = false then .noRequest missingKeyError
  else .requested "/api/v1/token/top-traders" ((request outcome).map APIResponse.data)

/-- Embedding of `searchTokens`. -/
def searchTokens {α : Type} (c : VyperClient) (_criteria : String) (_chainId : Option Int)
    (outcome : HttpOutcome (APIResponse α)) : OpResult α :=
  if jsTruthyStr c.apiKey = false then .noRequest missingKeyError
  else .requested "/api/v1/token/search" ((request outcome).map APIResponse.data)

/-- Embedding of `getWalletHoldings`.  The source contains no API-key
precondition check in this method: the request is issued unconditionally. -/
def getWalletHoldings {α : Type} (_c : VyperClient) (_walletAddress : String) (_chainId : Int)
    (outcome : HttpOutcome (APIResponse α)) : OpResult α :=
  .requested "/wallet/holdings" ((request outcome).map APIResponse.data)

/-- Embedding of `getWalletAggregatedPnl` (no API-key precondition check
in the source). -/
def getWalletAggregatedPnl {α : Type} (_c : VyperClient) (_walletAddress : String)
    (_chainId : Int) (outcome : HttpOutcome (APIResponse α)) : OpResult α :=
  .requested "/wallet/aggregated-pnl" ((request outcome).map APIResponse.data)

/-- Embedding of `getWalletPnl` (no API-key precondition check in the
source). -/
def getWalletPnl {α : Type} (_c : VyperClient) (_walletAddress : String) (_marketId : String)
    (_chainId : Int) (outcome : HttpOutcome (APIResponse α)) : OpResult α :=
  .requested "/wallet/pnl" ((request outcome).map APIResponse.data)

/-- Embedding of `getTokenPairs` (no API-key precondition check in the
source; the filter parameters affect only the query string). -/
def getTokenPairs {α : Type} (_c : VyperClient)
    (outcome : HttpOutcome (APIResponse α)) : OpResult α :=
  .requested "/token/pairs" ((request outcome).map APIResponse.data)

/-- Embedding of `getChainIds`: saves the current `X-API-Key` default
header, deletes it, performs the request, and in the `finally` block
restores the saved value if it was truthy.  Returns the operation result
together with the client state after the call. -/
def getChainIds {α : Type} (c : VyperClient) (outcome : HttpOutcome (APIResponse α)) :
    OpResult α × VyperClient :=
  let originalApiKey := c.headerXApiKey
  let cDuring : VyperClient := { c with headerXApiKey := none }
  let result := (request outcome).map APIResponse.data
  let cAfter :=
    if jsTruthyStr originalApiKey then { cDuring with headerXApiKey := originalApiKey }
    else cDuring
  (.requested "/api/v1/chain/ids" result, cAfter)

/-- JSON values as produced by the JavaScript `JSON.parse` builtin. -/
inductive JsValue : Type
  | null : JsValue
  | bool (b : Bool) : JsValue
  | num (q : ℚ) : JsValue
  | str (s : String) : JsValue
  | arr (elems : List JsValue) : JsValue
  | obj (fields : List (String × JsValue)) : JsValue

/-- Whitespace characters permitted between JSON tokens. -/
def jsonWs (c : Char) : Bool :=
  c = ' ' || c = '\t' || c = '\n' || c = '\r'

/-- Value of a hexadecimal digit character, if it is one. -/
def hexVal (c : Char) : Option Nat :=
  if '0' ≤ c ∧ c ≤ '9' then some (c.toNat - Char.toNat '0')
  else if 'a' ≤ c ∧ c ≤ 'f' then some (c.toNat - Char.toNat 'a' + 10)
  else if 'A' ≤ c ∧ c ≤ 'F' then some (c.toNat - Char.toNat 'A' + 10)
  else none

/-- Parses the body of a JSON string literal (the characters after the
opening quote), returning the decoded string and the rest of the input.
Surrogate-pair escapes are out of scope: no claim and no witness uses
them. -/
def parseStringBody : Nat → List Char → List Char → Option (String × List Char)
  | 0, _, _ => none
  | _ + 1, _, [] => none
  | fuel + 1, acc, c :: cs =>
    if c = '"' then some (String.mk acc.reverse, cs)
    else if c = '\\' then
      match cs with
      | [] => none
      | e :: cs2 =>
        if e = '"' then parseStringBody fuel ('"' :: acc) cs2
        else if e = '\\' then parseStringBody fuel ('\\' :: acc) cs2
        else if e = '/' then parseStringBody fuel ('/' :: acc) cs2
        else if e = 'b' then parseStringBody fuel ('\x08' :: acc) cs2
        else if e = 'f' then parseStringBody fuel ('\x0c' :: acc) cs2
        else if e = 'n' then parseStringBody fuel ('\n' :: acc) cs2
        else if e = 'r' then parseStringBody fuel ('\r' :: acc) cs2
        else if e = 't' then parseStringBody fuel ('\t' :: acc) cs2
        else if e = 'u' then
          match cs2 with
          | h1 :: h2 :: h3 :: h4 :: cs3 =>
            match hexVal h1, hexVal h2, hexVal h3, hexVal h4 with
            | some a, some b, some c1, some d =>
              parseStringBody fuel (Char.ofNat (((a * 16 + b) * 16 + c1) * 16 + d) :: acc) cs3
            | _, _, _, _ => none
          | _ => none
        else none
    else if c.toNat < 0x20 then none
    else parseStringBody fuel (c :: acc) cs

/-- Parses a JSON number literal prefix, returning its exact value and the
rest of the input. -/
def parseJsonNumber (cs : List Char) : Option (ℚ × List Char) :=
  let signed : Bool × List Char :=
    match cs with
    | '-' :: r => (true, r)
    | _ => (false, cs)
  let intPart := takeDigits signed.2
  let intDs := intPart.1
  let cs1 := intPart.2
  if intDs = [] then none
  else if intDs.length > 1 ∧ intDs.head? = some '0' then none
  else
    let fr : Option (List Char × List Char) :=
      match cs1 with
      | '.' :: rest =>
        let p := takeDigits rest
        if p.1 = [] then none else some p
      | _ => some ([], cs1)
    match fr with
    | none => none
    | some (fracDs, cs2) =>
      let ex : Option (Int × List Char) :=
        match cs2 with
        | e :: rest =>
          if e = 'e' ∨ e = 'E' then
            let esigned : Bool × List Char :=
              match rest with
              | '-' :: r => (true, r)
              | '+' :: r => (false, r)
              | _ => (false, rest)
            let p := takeDigits esigned.2
            if p.1 = [] then none
            else some ((if esigned.1 then -(digitsToNat p.1 : Int) else (digitsToNat p.1 : Int)), p.2)
          else some (0, cs2)
        | [] => some (0, cs2)
      match ex with
      | none => none
      | some (expVal, cs3) =>
        some (decimalValue signed.1 (digitsToNat (intDs ++ fracDs)) fracDs.length expVal, cs3)

mutual

/-- Parses one JSON value prefix (fuelled recursion; the fuel passed by
`jsonParse` always suffices). -/
def parseJsonValue : Nat → List Char → Option (JsValue × List Char)
  | 0, _ => none
  | fuel + 1, cs =>
    let cs := cs.dropWhile jsonWs
    match cs with
    | [] => none
    | c :: rest =>
      if c = 'n' then
        if List.isPrefixOf ("ull".data) rest then some (.null, rest.drop 3) else none
      else if c = 't' then
        if List.isPrefixOf ("rue".data) rest then some (.bool true, rest.drop 3) else none
      else if c = 'f' then
        if List.isPrefixOf ("alse".data) rest then some (.bool false, rest.drop 4) else none
      else if c = '"' then
        (parseStringBody (rest.length + 1) [] rest).map (fun p => (.str p.1, p.2))
      else if c = '[' then
        (parseJsonItems fuel rest).map (fun p => (.arr p.1, p.2))
      else if c = '\x7b' then
        (parseJsonFields fuel rest).map (fun p => (.obj p.1, p.2))
      else
        (parseJsonNumber cs).map (fun p => (.num p.1, p.2))

/-- Parses the items of a JSON array after the opening bracket. -/
def parseJsonItems : Nat → List Char → Option (List JsValue × List Char)
  | 0, _ => none
  | fuel + 1, cs =>
    let cs := cs.dropWhile jsonWs
    match cs with
    | ']' :: rest => some ([], rest)
    | _ =>
      match parseJsonValue fuel cs with
      | none => none
      | some (v, cs1) =>
        let cs2 := cs1.dropWhile jsonWs
        match cs2 with
        | ']' :: rest => some ([v], rest)
        | ',' :: rest =>
          match parseJsonItems fuel rest with
          | none => none
          | some (vs, cs3) => some (v :: vs, cs3)
        | _ => none

/-- Parses the fields of a JSON object after the opening brace.  On
duplicate keys the first occurrence is the one later looked up (the
JavaScript builtin keeps the last); no claim and no witness uses
duplicate keys. -/
def parseJsonFields : Nat → List Char → Option (List (String × JsValue) × List Char)
  | 0, _ => none
  | fuel + 1, cs =>
    let cs := cs.dropWhile jsonWs
    match cs with
    | '\x7d' :: rest => some ([], rest)
    | '"' :: rest =>
      match parseStringBody (rest.length + 1) [] rest with
      | none => none
      | some (key, cs1) =>
        let cs2 := cs1.dropWhile jsonWs
        match cs2 with
        | ':' :: cs3 =>
          match parseJsonValue fuel cs3 with
          | none => none
          | some (v, cs4) =>
            let cs5 := cs4.dropWhile jsonWs
            match cs5 with
            | '\x7d' :: rest2 => some ([(key, v)], rest2)
            | ',' :: rest2 =>
              match parseJsonFields fuel rest2 with
              | none => none
              | some (fs, cs6) => some ((key, v) :: fs, cs6)
            | _ => none
        | _ => none
    | _ => none

end

/-- Model of the JavaScript `JSON.parse` builtin: parses the whole text as
one JSON value (with surrounding whitespace), or fails. -/
def jsonParse (s : String) : Option JsValue :=
  match parseJsonValue (2 * s.length + 2) s.data with
  | some (v, rest) => if rest.dropWhile jsonWs = [] then some v else none
  | none => none

/-- Lowercase hexadecimal digit for `n < 16`. -/
def hexDigitStr (n : Nat) : String :=
  String.singleton (Char.ofNat (if n < 10 then Char.toNat '0' + n else Char.toNat 'a' + n - 10))

/-- Escaping of one character inside a JSON string literal, as the
JavaScript `JSON.stringify` builtin performs it. -/
def jsonEscapeChar (c : Char) : String :=
  if c = '"' then "\\\""
  else if c = '\\' then "\\\\"
  else if c = '\x08' then "\\b"
  else if c = '\x0c' then "\\f"
  else if c = '\n' then "\\n"
  else if c = '\r' then "\\r"
  else if c = '\t' then "\\t"
  else if c.toNat < 0x20 then "\\u00" ++ hexDigitStr (c.toNat / 16) ++ hexDigitStr (c.toNat % 16)
  else String.singleton c

/-- A string rendered as a JSON string literal. -/
def jsonQuote (s : String) : String :=
  "\"" ++ String.join (s.data.map jsonEscapeChar) ++ "\""

/-- Feed selector of src/vyper-websocket-client.ts (`FeedType`). -/
inductive FeedType : Type
  | TOKEN_EVENTS
  | MIGRATION_EVENTS
  | WALLET_EVENTS
deriving DecidableEq, Repr

/-- Wire value of a feed selector (its URL path segment). -/
def FeedType.path : FeedType → String
  | .TOKEN_EVENTS => "token-events"
  | .MIGRATION_EVENTS => "migration-events"
  | .WALLET_EVENTS => "wallet-events"

/-- Action tag of a subscription control message. -/
inductive SubscriptionMessageType : Type
  | SUBSCRIBE
  | UNSUBSCRIBE
deriving DecidableEq, Repr

/-- Wire value of an action tag. -/
def SubscriptionMessageType.wire : SubscriptionMessageType → String
  | .SUBSCRIBE => "subscribe"
  | .UNSUBSCRIBE => "unsubscribe"

/-- Token-category filters of a token subscription message. -/
inductive SubscriptionType : Type
  | PUMPFUN_TOKENS
  | RAYDIUM_AMM_TOKENS
  | RAYDIUM_CPMM_TOKENS
  | RAYDIUM_CLMM_TOKENS
deriving DecidableEq, Repr

/-- Wire value of a token-category filter. -/
def SubscriptionType.wire : SubscriptionType → String
  | .PUMPFUN_TOKENS => "PumpfunTokens"
  | .RAYDIUM_AMM_TOKENS => "RaydiumAmmTokens"
  | .RAYDIUM_CPMM_TOKENS => "RaydiumCpmmTokens"
  | .RAYDIUM_CLMM_TOKENS => "RaydiumClmmTokens"

/-- Subscription control message: either the token shape
(action and types) or the wallet shape (action and wallets). -/
inductive SubscriptionMessage : Type
  | token (action : SubscriptionMessageType) (types : List SubscriptionType)
  | wallet (action : SubscriptionMessageType) (wallets : List String)
deriving DecidableEq, Repr

/-- Model of `JSON.stringify` applied to a subscription control message
object, with fields serialized in their construction order. -/
def stringifyMessage : SubscriptionMessage → String
  | .token a ts =>
    "\x7b\"action\":" ++ jsonQuote a.wire ++ ",\"types\":[" ++
      String.intercalate "," (ts.map (fun t => jsonQuote t.wire)) ++ "]\x7d"
  | .wallet a ws =>
    "\x7b\"action\":" ++ jsonQuote a.wire ++ ",\"wallets\":[" ++
      String.intercalate "," (ws.map jsonQuote) ++ "]\x7d"

/-- Error type for the feed client (src/errors.ts
`VyperWebsocketError`). -/
structure VyperWebsocketError : Type where
  message : String
  statusCode : Option Nat
  connectionInfo : Option String
deriving DecidableEq, Repr

/-- The error every handle-requiring operation throws when no connection
handle exists. -/
def notConnectedError : VyperWebsocketError :=
  ⟨"Not connected to WebSocket", none, none⟩

/-- State of a `VyperWebsocketClient` instance.  The connection handle
and the registered message handler are modelled by their presence. -/
structure VyperWebsocketClient : Type where
  baseUrl : String
  apiKey : String
  connection : Option Unit
  messageHandler : Option Unit
  currentFeedType : Option FeedType
deriving DecidableEq, Repr

/-- Embedding of the `VyperWebsocketClient` constructor. -/
def VyperWebsocketClient.create (apiKey : String) : VyperWebsocketClient :=
  { baseUrl := "wss://api.vyper.trade/api/v1/ws"
  , apiKey := apiKey
  , connection := none
  , messageHandler := none
  , currentFeedType := none }

/-- Observable socket actions of a feed-client operation. -/
inductive WsEffect : Type
  | sendText (payload : String)
  | sendPing
  | sendPong
  | closeSocket
deriving DecidableEq, Repr

/-- Embedding of `connect`: records the feed type, creates the handle,
and resolves on the open event or rejects with a wrapped feed error
carrying the URL on an error event. -/
def connect (c : VyperWebsocketClient) (feedType : FeedType)
    (openOutcome : Except String Unit) :
    Except VyperWebsocketError Unit × VyperWebsocketClient :=
  let url := c.baseUrl ++ "/" ++ feedType.path ++ "?apiKey=" ++ c.apiKey
  let c1 : VyperWebsocketClient :=
    { c with currentFeedType := some feedType, connection := some () }
  match openOutcome with
  | .ok _ => (.ok (), c1)
  | .error e => (.error ⟨"Failed to connect: " ++ e, none, some url⟩, c1)

/-- Embedding of `subscribe`.  The control message is serialized and sent
only for the token-events and wallet-events feed types; the send outcome
is the behaviour of the underlying socket `send` call. -/
def subscribe (c : VyperWebsocketClient) (feedType : FeedType)
    (subscriptionMessage : SubscriptionMessage) (sendOutcome : Except String Unit) :
    Except VyperWebsocketError Unit × List WsEffect :=
  match c.connection with
  | none => (.error notConnectedError, [])
  | some _ =>
    if feedType = .TOKEN_EVENTS ∨ feedType = .WALLET_EVENTS then
      match sendOutcome with
      | .ok _ => (.ok (), [.sendText (stringifyMessage subscriptionMessage)])
      | .error e => (.error ⟨"Failed to subscribe: " ++ e, none, none⟩, [])
    else (.ok (), [])

/-- Embedding of `unsubscribe` (same structure as `subscribe`, with its
own wrapping message). -/
def unsubscribe (c : VyperWebsocketClient) (feedType : FeedType)
    (subscriptionMessage : SubscriptionMessage) (sendOutcome : Except String Unit) :
    Except VyperWebsocketError Unit × List WsEffect :=
  match c.connection with
  | none => (.error notConnectedError, [])
  | some _ =>
    if feedType = .TOKEN_EVENTS ∨ feedType = .WALLET_EVENTS then
      match sendOutcome with
      | .ok _ => (.ok (), [.sendText (stringifyMessage subscriptionMessage)])
      | .error e => (.error ⟨"Failed to unsubscribe: " ++ e, none, none⟩, [])
    else (.ok (), [])

/-- Embedding of `ping`. -/
def ping (c : VyperWebsocketClient) (sendOutcome : Except String Unit) :
    Except VyperWebsocketError Unit × List WsEffect :=
  match c.connection with
  | none => (.error notConnectedError, [])
  | some _ =>
    match sendOutcome with
    | .ok _ => (.ok (), [.sendPing])
    | .error e => (.error ⟨"Failed to send ping: " ++ e, none, none⟩, [])

/-- Embedding of `pong`. -/
def pong (c : VyperWebsocketClient) (sendOutcome : Except String Unit) :
    Except VyperWebsocketError Unit × List WsEffect :=
  match c.connection with
  | none => (.error notConnectedError, [])
  | some _ =>
    match sendOutcome with
    | .ok _ => (.ok (), [.sendPong])
    | .error e => (.error ⟨"Failed to send pong: " ++ e, none, none⟩, [])

/-- Embedding of `disconnect`: with no handle it resolves at once leaving
the client unchanged; with a handle it closes the socket, and then either
the close event fires (handle cleared, resolve) or an error event fires
first (handle kept, reject with a wrapped error). -/
def disconnect (c : VyperWebsocketClient) (closeOutcome : Except String Unit) :
    Except VyperWebsocketError Unit × VyperWebsocketClient × List WsEffect :=
  match c.connection with
  | none => (.ok (), c, [])
  | some _ =>
    match closeOutcome with
    | .ok _ => (.ok (), { c with connection := none }, [.closeSocket])
    | .error e => (.error ⟨"Failed to disconnect: " ++ e, none, none⟩, c, [.closeSocket])

/-- Embedding of `cleanup`: awaits `disconnect` when a handle exists,
otherwise does nothing. -/
def cleanup (c : VyperWebsocketClient) (closeOutcome : Except String Unit) :
    Except VyperWebsocketError Unit × VyperWebsocketClient × List WsEffect :=
  match c.connection with
  | none => (.ok (), c, [])
  | some _ => disconnect c closeOutcome

/-- Property read `value[key]` on a parsed JSON value, as JavaScript
performs it: reading a property of `null` throws a TypeError, reading a
missing property (or a property of a non-object) yields `undefined`
(modelled as `none`). -/
def jsGet (v : JsValue) (key : String) : Except String (Option JsValue) :=
  match v with
  | .null => .error ("TypeError: Cannot read properties of null (reading " ++ key ++ ")")
  | .obj fields => .ok (fields.lookup key)
  | _ => .ok none

/-- Keys of the chain-action record built by `convertToChainAction`, in
source order. -/
def chainActionKeys : List String :=
  ["signer", "tokenAccount", "transactionId", "tokenMint", "marketId",
   "actionType", "tokenAmount", "assetAmount", "tokenPriceUsd",
   "tokenPriceAsset", "swapTotalUsd", "swapTotalAsset",
   "tokenMarketCapAsset", "tokenMarketCapUsd", "tokenLiquidityAsset",
   "tokenLiquidityUsd", "pooledToken", "pooledAsset", "actionTimestamp",
   "bondingCurvePercentage", "botUsed"]

/-- Keys of the token-pair record built by `convertToTokenPair`, in
source order. -/
def tokenPairKeys : List String :=
  ["abused", "bondingCurvePercentage", "buyTxnCount", "chainId",
   "contractCreator", "createdTimestamp", "description", "freezeAuthority",
   "image", "initialAssetLiquidity", "initialUsdLiquidity", "isMigrated",
   "lpBurned", "lpCreator", "marketId", "metadataUri", "migratedMarketId",
   "migrationState", "mintAuthority", "name", "pooledAsset", "pooledToken",
   "priceChangePercent", "sellTxnCount", "symbol", "telegram",
   "tokenLiquidityAsset", "tokenLiquidityUsd", "tokenMarketCapAsset",
   "tokenMarketCapUsd", "tokenMint", "tokenPriceAsset", "tokenPriceUsd",
   "tokenType", "top10HoldingPercent", "totalSupply", "transactionCount",
   "twitter", "volumeAsset", "volumeUsd", "website"]

/-- Builds a record by reading each listed key off the parsed value. -/
def convertFields (data : JsValue) (keys : List String) :
    Except String (List (String × Option JsValue)) :=
  keys.mapM (fun k => (jsGet data k).map (fun v => (k, v)))

/-- Embedding of `convertToChainAction`. -/
def convertToChainAction (data : JsValue) :
    Except String (List (String × Option JsValue)) :=
  convertFields data chainActionKeys

/-- Embedding of `convertToTokenPair`. -/
def convertToTokenPair (data : JsValue) :
    Except String (List (String × Option JsValue)) :=
  convertFields data tokenPairKeys

/-- Embedding of `convertMessage`: dispatch on the feed type recorded at
connect time; with no recorded feed type it throws. -/
def convertMessage (feed : Option FeedType) (data : JsValue) :
    Except String (List (String × Option JsValue)) :=
  match feed with
  | some .WALLET_EVENTS => convertToChainAction data
  | some .MIGRATION_EVENTS => convertToTokenPair data
  | some .TOKEN_EVENTS => convertToTokenPair data
  | none => .error "Unknown feed type: undefined"

/-- Raw inbound frame as the message callback receives it.  Text frames
are modelled by their decoded text (the byte-to-text decoders used by the
source are total); `unsupported` covers every other payload type, on
which the callback throws before parsing. -/
inductive FrameData : Type
  | buffer (text : String)
  | arrayBuffer (text : String)
  | bufferList (chunks : List String)
  | unsupported
deriving DecidableEq, Repr

/-- Decoding step of the message callback. -/
def decodeFrame : FrameData → Except String String
  | .buffer t => .ok t
  | .arrayBuffer t => .ok t
  | .bufferList cs => .ok (String.join cs)
  | .unsupported => .error "Unsupported data type"

/-- Full processing of one inbound frame: decode, parse as JSON, map into
the record shape of the active feed.  Any failure is the caught error of
the try block. -/
def processFrame (feed : Option FeedType) (f : FrameData) :
    Except String (List (String × Option JsValue)) := do
  let text ← decodeFrame f
  match jsonParse text with
  | none => Except.error "SyntaxError: Unexpected token in JSON"
  | some parsed => convertMessage feed parsed

/-- State of the promise returned by `listen`: a JavaScript promise
settles at most once, so only a pending promise can resolve or reject. -/
inductive PromiseState : Type
  | pending
  | resolved
  | rejected (e : VyperWebsocketError)
deriving DecidableEq, Repr

/-- Resolution of a promise (a no-op once settled). -/
def PromiseState.resolve : PromiseState → PromiseState
  | .pending => .resolved
  | p => p

/-- Rejection of a promise (a no-op once settled). -/
def PromiseState.reject (e : VyperWebsocketError) : PromiseState → PromiseState
  | .pending => .rejected e
  | p => p

/-- Events the socket can deliver to the handlers `listen` registers. -/
inductive WsEvent : Type
  | opened
  | message (f : FrameData)
  | closed
  | errored (msg : String)
deriving DecidableEq, Repr

/-- Observable state of one `listen` call: the client, the promise
`listen` returned, the sequence of records delivered to the registered
handler, and the console log lines. -/
structure ListenState : Type where
  client : VyperWebsocketClient
  promise : PromiseState
  handlerCalls : List (List (String × Option JsValue))
  logs : List String

/-- Embedding of the four handlers `listen` registers, as one step per
delivered socket event.  A message is processed only when a handler is
registered; a processing failure is logged and otherwise changes
nothing. -/
def listenStep (s : ListenState) (e : WsEvent) : ListenState :=
  match e with
  | .opened =>
    { s with
      promise := s.promise.resolve
      logs := s.logs ++
        ["Vyper Websocket | WebSocket connection is open and ready to receive messages"] }
  | .message f =>
    match s.client.messageHandler with
    | none => s
    | some _ =>
      match processFrame s.client.currentFeedType f with
      | .ok converted => { s with handlerCalls := s.handlerCalls ++ [converted] }
      | .error m =>
        { s with logs := s.logs ++ ["Vyper Websocket | Error parsing message: " ++ m] }
  | .closed =>
    { s with promise := s.promise.reject ⟨"Connection closed unexpectedly", none, none⟩ }
  | .errored m =>
    { s with promise := s.promise.reject ⟨"Error while listening to messages: " ++ m, none, none⟩ }

/-- Iterated `listenStep` over a sequence of delivered events. -/
def listenRun (s : ListenState) (events : List WsEvent) : ListenState :=
  events.foldl listenStep s

/-- Class of the error produced by `request` on a failing outcome. -/
def requestClass (o : HttpOutcome Unit) : Option ErrClass :=
  (Except.errorOf (request o)).map VyperError.classOf

/-- The retryAfter value of the error produced by `request`, if any. -/
def requestRetryAfter (o : HttpOutcome Unit) : Option JSNum :=
  (Except.errorOf (request o)).bind VyperError.retryAfter

/-- C1 (counterexample): `getWalletHoldings` on a client constructed
without an API key performs no local precondition check: it issues the
HTTP request instead of rejecting locally with an authentication error. -/
theorem getWalletHoldings_no_precheck_counterexample :
    (getWalletHoldings (VyperClient.create none) "0xwallet" 1
      (HttpOutcome.networkError "Network Error" : HttpOutcome (APIResponse Unit))).issuedRequest
      = true := by
  rfl

/-- C1 (amended): of the listed operations, the eight token-side
operations (`getTokenAth`, `getTokenMarket`, `getTokenHolders`,
`getTokenMarkets`, `getTokenMetadata`, `getTokenSymbol`, `getTopTraders`,
`searchTokens`) perform the local API-key precondition check: called on a
client whose API key is absent (or empty, hence falsy) they reject with
the authentication error and issue no HTTP request; the wallet and pairs
operations issue their request without any local check.  The checked
methods contain no state mutation, so the client is unchanged by
construction. -/
theorem auth_precheck_token_ops (α : Type) (c : VyperClient)
    (h : jsTruthyStr c.apiKey = false)
    (chainId : Int) (marketId tokenMint walletAddress criteria interval : String)
    (o : HttpOutcome (APIResponse α)) (oh : HttpOutcome (APIResponse TokenHoldersPayload)) :
    getTokenAth c chainId marketId o = .noRequest missingKeyError ∧
    getTokenMarket c marketId chainId interval o = .noRequest missingKeyError ∧
    getTokenHolders c marketId chainId oh = .noRequest missingKeyError ∧
    getTokenMarkets c tokenMint chainId o = .noRequest missingKeyError ∧
    getTokenMetadata c chainId tokenMint o = .noRequest missingKeyError ∧
    getTokenSymbol c chainId tokenMint o = .noRequest missingKeyError ∧
    getTopTraders c marketId chainId o = .noRequest missingKeyError ∧
    searchTokens c criteria (some chainId) o = .noRequest missingKeyError ∧
    (getWalletHoldings c walletAddress chainId o).issuedRequest = true ∧
    (getWalletAggregatedPnl c walletAddress chainId o).issuedRequest = true ∧
    (getWalletPnl c walletAddress marketId chainId o).issuedRequest = true ∧
    (getTokenPairs c o).issuedRequest = true := by
  simp [getTokenAth, getTokenMarket, getTokenHolders, getTokenMarkets,
    getTokenMetadata, getTokenSymbol, getTopTraders, searchTokens,
    getWalletHoldings, getWalletAggregatedPnl, getWalletPnl, getTokenPairs,
    OpResult.issuedRequest, h]

/-- C1 (witness): the amended theorem applied to the client constructed
with no API key. -/
theorem auth_precheck_token_ops_witness :
    getTokenAth (VyperClient.create none) 1 "m"
      (HttpOutcome.networkError "x" : HttpOutcome (APIResponse Unit)) = .noRequest missingKeyError ∧
    searchTokens (VyperClient.create none) "c" (some 1)
      (HttpOutcome.networkError "x" : HttpOutcome (APIResponse Unit)) = .noRequest missingKeyError := by
  have h := auth_precheck_token_ops Unit (VyperClient.create none) rfl 1 "m" "t" "w" "c" "24h"
    (HttpOutcome.networkError "x") (HttpOutcome.networkError "x")
  exact ⟨h.1, h.2.2.2.2.2.2.2.1⟩

/-- C2 (counterexample): a 429 response with a body present raises a
rate-limit error that carries neither the original status code nor the
raw response body (its constructor passes only the message to the base
class). -/
theorem rate_limit_error_drops_status_counterexample :
    (Except.errorOf (request (HttpOutcome.httpError 429 none "BODY" "msg" : HttpOutcome Unit))).map
        VyperError.statusCode = some none ∧
    (Except.errorOf (request (HttpOutcome.httpError 429 none "BODY" "msg" : HttpOutcome Unit))).map
        VyperError.response = some none := by
  exact ⟨rfl, rfl⟩

/-- C2 (amended): for every failing HTTP response with a status other
than 429, the raised error carries the original status code and the raw
response body; the 429 rate-limit error carries neither (it carries only
the retryAfter value), and network-level failures carry neither because
no response exists. -/
theorem errors_carry_status_and_body (status : Nat) (hdr : Option String) (body msg : String)
    (h : status ≠ 429) :
    (Except.errorOf (request (HttpOutcome.httpError status hdr body msg : HttpOutcome Unit))).map
        VyperError.statusCode = some (some status) ∧
    (Except.errorOf (request (HttpOutcome.httpError status hdr body msg : HttpOutcome Unit))).map
        VyperError.response = some (some body) := by
  by_cases h401 : status = 401
  · subst h401
    exact ⟨rfl, rfl⟩
  · by_cases h5xx : 500 ≤ status ∧ status < 600
    · simp [request, h401, h, h5xx, Except.errorOf, VyperError.statusCode, VyperError.response]
    · simp [request, h401, h, h5xx, Except.errorOf, VyperError.statusCode, VyperError.response]

/-- C2 (witness): the amended theorem applied to a 500 response. -/
theorem errors_carry_status_and_body_witness :
    (Except.errorOf (request (HttpOutcome.httpError 500 none "oops" "m" : HttpOutcome Unit))).map
        VyperError.statusCode = some (some 500) ∧
    (Except.errorOf (request (HttpOutcome.httpError 500 none "oops" "m" : HttpOutcome Unit))).map
        VyperError.response = some (some "oops") :=
  errors_carry_status_and_body 500 none "oops" "m" (by decide)

/-- C3 (counterexample): a 429 response whose retry-after header is
present but not parseable as a number yields retryAfter = NaN, not 3.0:
the fallback literal applies only when the header is absent or empty,
because `parseFloat` of a non-numeric non-empty string is NaN. -/
theorem retry_after_unparseable_counterexample :
    requestRetryAfter (HttpOutcome.httpError 429 (some "abc") "b" "m") = some JSNum.nan ∧
    JSNum.nan ≠ JSNum.val 3 := by
  exact ⟨rfl, by decide⟩

/-- C3 (amended): on a 429 response the rate-limit error carries
retryAfter = 3.0 when the retry-after header is absent or empty, and
otherwise carries the JavaScript parseFloat of the header text, which is
NaN when that text is unparseable. -/
theorem retry_after_parsing (hdr : Option String) (body msg : String) :
    (hdr = none →
      requestRetryAfter (HttpOutcome.httpError 429 hdr body msg) = some (JSNum.val 3)) ∧
    (hdr = some "" →
      requestRetryAfter (HttpOutcome.httpError 429 hdr body msg) = some (JSNum.val 3)) ∧
    (∀ s, hdr = some s → s ≠ "" →
      requestRetryAfter (HttpOutcome.httpError 429 hdr body msg) = some (jsParseFloat s)) := by
  refine ⟨?_, ?_, ?_⟩
  · rintro rfl
    rfl
  · rintro rfl
    rfl
  · rintro s rfl hs
    simp [requestRetryAfter, request, Except.errorOf, VyperError.retryAfter, headerOrDefault, hs]

/-- C3 (witness): the amended theorem applied to an absent header and to
the parseable header text 2.5. -/
theorem retry_after_parsing_witness :
    requestRetryAfter (HttpOutcome.httpError 429 none "b" "m") = some (JSNum.val 3) ∧
    requestRetryAfter (HttpOutcome.httpError 429 (some "2.5") "b" "m") = some (jsParseFloat "2.5") ∧
    jsParseFloat "2.5" = JSNum.val (mkRat 5 2) := by
  refine ⟨(retry_after_parsing none "b" "m").1 rfl,
    (retry_after_parsing (some "2.5") "b" "m").2.2 "2.5" rfl (by decide), by rfl⟩

/-- C4: the error class raised by `request` is determined exactly by the
HTTP outcome: 401 gives an authentication error, 429 a rate-limit error,
a status in the interval from 500 up to but excluding 600 a server error,
any other (necessarily non-2xx) status the generic API error, and a
network-level failure with no response a server error. -/
theorem request_error_classification (status : Nat) (hdr : Option String)
    (body msg netMsg : String) :
    (status = 401 →
      requestClass (HttpOutcome.httpError status hdr body msg) = some ErrClass.authentication) ∧
    (status = 429 →
      requestClass (HttpOutcome.httpError status hdr body msg) = some ErrClass.rateLimit) ∧
    (500 ≤ status → status < 600 →
      requestClass (HttpOutcome.httpError status hdr body msg) = some ErrClass.server) ∧
    (status ≠ 401 → status ≠ 429 → ¬(500 ≤ status ∧ status < 600) →
      requestClass (HttpOutcome.httpError status hdr body msg) = some ErrClass.api) ∧
    (requestClass (HttpOutcome.networkError netMsg) = some ErrClass.server) := by
  refine ⟨?_, ?_, ?_, ?_, ?_⟩
  · rintro rfl
    rfl
  · rintro rfl
    rfl
  · intro h1 h2
    have h401 : status ≠ 401 := by omega
    have h429 : status ≠ 429 := by omega
    simp [requestClass, request, h401, h429, h1, h2, Except.errorOf, VyperError.classOf]
  · intro h401 h429 h5xx
    simp [requestClass, request, h401, h429, h5xx, Except.errorOf, VyperError.classOf]
  · by_cases hn : netMsg = "Network Error" <;>
      simp [requestClass, request, hn, Except.errorOf, VyperError.classOf]

/-- C4 (witness): the classification theorem applied at statuses 401,
429, 503 and 400 and at a network failure. -/
theorem request_error_classification_witness :
    requestClass (HttpOutcome.httpError 401 none "b" "m") = some ErrClass.authentication ∧
    requestClass (HttpOutcome.httpError 429 none "b" "m") = some ErrClass.rateLimit ∧
    requestClass (HttpOutcome.httpError 503 none "b" "m") = some ErrClass.server ∧
    requestClass (HttpOutcome.httpError 400 none "b" "m") = some ErrClass.api ∧
    requestClass (HttpOutcome.networkError "connection reset") = some ErrClass.server := by
  refine ⟨(request_error_classification 401 none "b" "m" "connection reset").1 rfl,
    (request_error_classification 429 none "b" "m" "connection reset").2.1 rfl,
    (request_error_classification 503 none "b" "m" "connection reset").2.2.1 (by decide) (by decide),
    (request_error_classification 400 none "b" "m" "connection reset").2.2.2.1
      (by decide) (by decide) (by decide),
    (request_error_classification 400 none "b" "m" "connection reset").2.2.2.2⟩

/-- C6: after `getChainIds` completes, whatever the HTTP outcome was
(data or error), the client state equals its state from before the call:
the credential header is suppressed only for the duration of that single
request and restored by the `finally` block, and no other field changes.
The hypothesis excludes the one state the constructor can never produce,
a present but empty header, on which the restore guard would skip. -/
theorem getChainIds_restores_header (α : Type) (c : VyperClient)
    (o : HttpOutcome (APIResponse α)) (h : c.headerXApiKey ≠ some "") :
    (getChainIds c o).2 = c := by
  cases c with
  | mk baseUrl apiKey headerXApiKey =>
    cases headerXApiKey with
    | none => simp [getChainIds, jsTruthyStr]
    | some s =>
      have hs : s ≠ "" := by
        intro hempty
        exact h (by simp [hempty])
      simp [getChainIds, jsTruthyStr, hs]

/-- C6 (witness): the theorem applied to a client holding a key, around a
failing request. -/
theorem getChainIds_restores_header_witness :
    (getChainIds (VyperClient.create (some "key"))
      (HttpOutcome.networkError "Network Error" : HttpOutcome (APIResponse Unit))).2
      = VyperClient.create (some "key") :=
  getChainIds_restores_header Unit (VyperClient.create (some "key"))
    (HttpOutcome.networkError "Network Error") (by simp [VyperClient.create, jsTruthyStr])

/-- C9: on a successful response, `getTokenHolders` returns a record
whose totalHolders field equals the total_holders field of the payload
and whose holders list is the payload holders list unchanged. -/
theorem getTokenHolders_field_mapping (c : VyperClient) (marketId : String) (chainId : Int)
    (env : APIResponse TokenHoldersPayload) (h : jsTruthyStr c.apiKey = true) :
    ∃ r, getTokenHolders c marketId chainId (.success env)
        = OpResult.requested "/api/v1/token/holders" (Except.ok r) ∧
      r.totalHolders = env.data.total_holders ∧
      r.holders = env.data.holders := by
  refine ⟨{ holders := env.data.holders, totalHolders := env.data.total_holders }, ?_, rfl, rfl⟩
  simp [getTokenHolders, request, Except.map, h]

/-- C9 (witness): the theorem applied to a concrete two-holder payload. -/
theorem getTokenHolders_field_mapping_witness :
    ∃ r, getTokenHolders (VyperClient.create (some "key")) "m" 1
        (.success { status := "success", message := "", data :=
          { holders := [{ percentOwned := 10, tokenHoldings := 1000, usdHoldings := 10000,
                          walletAddress := "0x123" }],
            total_holders := 2 } })
        = OpResult.requested "/api/v1/token/holders" (Except.ok r) ∧
      r.totalHolders = 2 ∧
      r.holders = [{ percentOwned := 10, tokenHoldings := 1000, usdHoldings := 10000,
                     walletAddress := "0x123" }] :=
  getTokenHolders_field_mapping (VyperClient.create (some "key")) "m" 1 _ rfl

/-- C5 (counterexample): on a connected client, subscribing to the
migration-events feed sends nothing on the socket (and resolves), rather
than sending the serialized control message: the send is guarded to the
token-events and wallet-events feed types only. -/
theorem subscribe_migration_sends_nothing_counterexample :
    (subscribe
        { VyperWebsocketClient.create "k" with
            connection := some (), currentFeedType := some FeedType.MIGRATION_EVENTS }
        FeedType.MIGRATION_EVENTS
        (SubscriptionMessage.token SubscriptionMessageType.SUBSCRIBE
          [SubscriptionType.PUMPFUN_TOKENS])
        (Except.ok ())).2 = [] ∧
    ([] : List WsEffect) ≠
      [WsEffect.sendText (stringifyMessage
        (SubscriptionMessage.token SubscriptionMessageType.SUBSCRIBE
          [SubscriptionType.PUMPFUN_TOKENS]))] := by
  exact ⟨rfl, by simp⟩

/-- C5 (amended): on a connected client, `subscribe` and `unsubscribe`
serialize the control message to JSON text and send exactly that text on
the socket (and resolve) for the token-events and wallet-events feed
types, and wrap and reject any send failure; for the migration-events
feed type they resolve without sending anything. -/
theorem subscribe_sends_serialized_message (c : VyperWebsocketClient)
    (m : SubscriptionMessage) (h : c.connection = some ()) :
    (∀ feed, feed = FeedType.TOKEN_EVENTS ∨ feed = FeedType.WALLET_EVENTS →
      subscribe c feed m (.ok ()) = (.ok (), [.sendText (stringifyMessage m)]) ∧
      unsubscribe c feed m (.ok ()) = (.ok (), [.sendText (stringifyMessage m)]) ∧
      (∀ err, subscribe c feed m (.error err)
            = (.error ⟨"Failed to subscribe: " ++ err, none, none⟩, []) ∧
        unsubscribe c feed m (.error err)
            = (.error ⟨"Failed to unsubscribe: " ++ err, none, none⟩, []))) ∧
    (∀ s, subscribe c FeedType.MIGRATION_EVENTS m s = (.ok (), []) ∧
      unsubscribe c FeedType.MIGRATION_EVENTS m s = (.ok (), [])) := by
  constructor
  · rintro feed (rfl | rfl) <;>
      exact ⟨by simp [subscribe, h], by simp [unsubscribe, h],
        fun err => ⟨by simp [subscribe, h], by simp [unsubscribe, h]⟩⟩
  · intro s
    cases s <;> exact ⟨by simp [subscribe, h], by simp [unsubscribe, h]⟩

/-- C5 (witness): the amended theorem applied to a connected client and a
concrete wallet subscription message, on the wallet-events feed. -/
theorem subscribe_sends_serialized_message_witness :
    subscribe
        { VyperWebsocketClient.create "k" with
            connection := some (), currentFeedType := some FeedType.WALLET_EVENTS }
        FeedType.WALLET_EVENTS
        (SubscriptionMessage.wallet SubscriptionMessageType.SUBSCRIBE ["w1"])
        (.ok ())
      = (.ok (), [.sendText (stringifyMessage
          (SubscriptionMessage.wallet SubscriptionMessageType.SUBSCRIBE ["w1"]))]) ∧
    stringifyMessage (SubscriptionMessage.wallet SubscriptionMessageType.SUBSCRIBE ["w1"])
      = "\x7b\"action\":\"subscribe\",\"wallets\":[\"w1\"]\x7d" := by
  refine ⟨((subscribe_sends_serialized_message
      { VyperWebsocketClient.create "k" with
          connection := some (), currentFeedType := some FeedType.WALLET_EVENTS }
      (SubscriptionMessage.wallet SubscriptionMessageType.SUBSCRIBE ["w1"]) rfl).1
      FeedType.WALLET_EVENTS (Or.inr rfl)).1, rfl⟩

/-- C8: `subscribe`, `unsubscribe`, `ping` and `pong` on a client whose
connection handle does not exist each reject with the feed error saying
not connected, and send nothing on any socket. -/
theorem ops_require_connection (c : VyperWebsocketClient) (h : c.connection = none)
    (feed : FeedType) (m : SubscriptionMessage) (s : Except String Unit) :
    subscribe c feed m s = (.error notConnectedError, []) ∧
    unsubscribe c feed m s = (.error notConnectedError, []) ∧
    ping c s = (.error notConnectedError, []) ∧
    pong c s = (.error notConnectedError, []) := by
  exact ⟨by simp [subscribe, h], by simp [unsubscribe, h],
    by simp [ping, h], by simp [pong, h]⟩

/-- C8 (witness): the theorem applied to a freshly constructed client,
on which no connection handle exists. -/
theorem ops_require_connection_witness :
    subscribe (VyperWebsocketClient.create "k") FeedType.TOKEN_EVENTS
        (SubscriptionMessage.token SubscriptionMessageType.SUBSCRIBE []) (.ok ())
      = (.error notConnectedError, []) ∧
    ping (VyperWebsocketClient.create "k") (.ok ()) = (.error notConnectedError, []) := by
  have h := ops_require_connection (VyperWebsocketClient.create "k") rfl
    FeedType.TOKEN_EVENTS (SubscriptionMessage.token SubscriptionMessageType.SUBSCRIBE [])
    (.ok ())
  exact ⟨h.1, h.2.2.1⟩

/-- C10: `cleanup` is observably equivalent to `disconnect` in every
feed-client state and for every close outcome: with a handle both close
the socket, clear the handle and resolve (or reject with the same wrapped
error keeping the handle), and without a handle both resolve immediately
leaving the client unchanged. -/
theorem cleanup_equals_disconnect (c : VyperWebsocketClient) (o : Except String Unit) :
    cleanup c o = disconnect c o := by
  rcases hc : c.connection with _ | u
  · simp [cleanup, disconnect, hc]
  · cases u
    simp [cleanup, hc]

/-- C7: during `listen`, an inbound frame whose decoding, JSON parsing or
field mapping fails is logged and swallowed: the promise `listen`
returned keeps its state (in particular it is not rejected), the client
and its connection handle are unchanged, the registered handler receives
no call for that frame, and a subsequent well-formed frame is still
converted and delivered to the handler. -/
theorem listen_swallows_malformed_frames (s : ListenState) (f : FrameData) (m : String)
    (hHandler : s.client.messageHandler = some ())
    (hFail : processFrame s.client.currentFeedType f = Except.error m) :
    (listenStep s (.message f)).promise = s.promise ∧
    (listenStep s (.message f)).client = s.client ∧
    (listenStep s (.message f)).handlerCalls = s.handlerCalls ∧
    (listenStep s (.message f)).logs
      = s.logs ++ ["Vyper Websocket | Error parsing message: " ++ m] ∧
    (∀ (g : FrameData) (v : List (String × Option JsValue)),
      processFrame s.client.currentFeedType g = Except.ok v →
      (listenStep (listenStep s (.message f)) (.message g)).handlerCalls
        = s.handlerCalls ++ [v]) := by
  refine ⟨?_, ?_, ?_, ?_, ?_⟩ <;>
    simp [listenStep, hHandler, hFail]
  intro g v hOk
  simp [listenStep, hHandler, hFail, hOk]

/-- C7 (witness): the theorem applied in a wallet-feed listen state to
the malformed frame nope followed by a well-formed chain-action frame. -/
theorem listen_swallows_malformed_frames_witness :
    (listenStep
        { client := { VyperWebsocketClient.create "k" with
            connection := some (), messageHandler := some (),
            currentFeedType := some FeedType.WALLET_EVENTS }
          , promise := PromiseState.resolved, handlerCalls := [], logs := [] }
        (.message (FrameData.buffer "nope"))).promise = PromiseState.resolved ∧
    (listenStep
        { client := { VyperWebsocketClient.create "k" with
            connection := some (), messageHandler := some (),
            currentFeedType := some FeedType.WALLET_EVENTS }
          , promise := PromiseState.resolved, handlerCalls := [], logs := [] }
        (.message (FrameData.buffer "nope"))).handlerCalls = [] ∧
    (listenStep
        (listenStep
          { client := { VyperWebsocketClient.create "k" with
              connection := some (), messageHandler := some (),
              currentFeedType := some FeedType.WALLET_EVENTS }
            , promise := PromiseState.resolved, handlerCalls := [], logs := [] }
          (.message (FrameData.buffer "nope")))
        (.message (FrameData.buffer "\x7b\"signer\":\"abc\"\x7d"))).handlerCalls
      = [chainActionKeys.map (fun k =>
          (k, if k = "signer" then some (JsValue.str "abc") else none))] := by
  have h := listen_swallows_malformed_frames
    { client := { VyperWebsocketClient.create "k" with
        connection := some (), messageHandler := some (),
        currentFeedType := some FeedType.WALLET_EVENTS }
      , promise := PromiseState.resolved, handlerCalls := [], logs := [] }
    (FrameData.buffer "nope") "SyntaxError: Unexpected token in JSON" rfl rfl
  refine ⟨h.1, h.2.2.1, ?_⟩
  have h2 := h.2.2.2.2 (FrameData.buffer "\x7b\"signer\":\"abc\"\x7d")
    (chainActionKeys.map (fun k =>
      (k, if k = "signer" then some (JsValue.str "abc") else none))) (by rfl)
  exact h2
